import Mathlib

/-!
Verification development for `src/detector.js` (`createDetector`).

The file gives a shallow embedding of the detector: JS values with heap
identities, the path-to-accessor rendering (`pathToAccessor`), the
include/exclude filter (`shouldWatch`), the wrapper cache and fast-return
logic (`createProxy`), the event emitter (`emitEvent`) and the five proxy
trap handlers.  Effects that the JS code performs imperatively (invoking
the observer, calling `Reflect.set`, attaching promise continuations) are
reified as a list of `TrapAction` values so that ordering and multiplicity
of the side effects can be stated.  Outcomes of the underlying reflected
operations (`Reflect.get` / `Reflect.apply` / ...) are parameters of the
handlers, since the observed object graph is arbitrary host code.
-/

namespace Detector

/-- JS runtime values.  Objects and functions are identified by a heap id
(`obj`); `typeof v` is `"object"` or `"function"` exactly on that
constructor.  Reference identity of objects is id equality. -/
inductive JSValue where
  | null
  | undef
  | bool (b : Bool)
  | num (n : Int)
  | str (s : String)
  | obj (id : Nat)
deriving DecidableEq

/-- Intrinsic facts about a heap object: whether it is an `instanceof
Promise`, whether it has a `then` method (a thenable; the detector never
reads this), and whether `new Proxy(obj, handler)` succeeds on it. -/
structure ObjInfo where
  promise : Bool := false
  thenable : Bool := false
  proxyable : Bool := true
deriving DecidableEq

/-- The (immutable, for our purposes) map from object ids to their
intrinsic facts. -/
abbrev Heap := Nat → ObjInfo

/-- One JS symbol: `Symbol.keyFor` result (for globally registered
symbols), the description text, and whether it belongs to the
`BUILTIN_SYMBOLS` set of detector.js lines 43-50. -/
structure SymInfo where
  globalKey : Option String := none
  description : Option String := none
  wellKnown : Bool := false
deriving DecidableEq

/-- One segment of an access path: a property-name string, a numeric
index, or a symbol (detector.js represents paths as arrays of these). -/
inductive PathSeg where
  | str (s : String)
  | num (n : Nat)
  | sym (si : SymInfo)
deriving DecidableEq

/-- Lowercase hex digit, used for JSON control-character escapes. -/
def hexDigit (n : Nat) : Char :=
  if n < 10 then Char.ofNat (48 + n) else Char.ofNat (97 + (n - 10))

/-- Four-digit hex rendering of a code point below 0x10000. -/
def hex4 (n : Nat) : String :=
  String.mk [hexDigit (n / 4096 % 16), hexDigit (n / 256 % 16),
             hexDigit (n / 16 % 16), hexDigit (n % 16)]

/-- How `JSON.stringify` escapes one character inside a string literal. -/
def jsonEscapeChar (c : Char) : String :=
  if c = '"' then "\\\""
  else if c = '\\' then "\\\\"
  else if c = '\x08' then "\\b"
  else if c = '\x0c' then "\\f"
  else if c = '\n' then "\\n"
  else if c = '\r' then "\\r"
  else if c = '\t' then "\\t"
  else if c.toNat < 32 then "\\u" ++ hex4 c.toNat
  else String.singleton c

/-- Model of `JSON.stringify(s)` for a string `s` (detector.js lines 171
and 176): the quoted, escape-safe literal. -/
def jsonQuote (s : String) : String :=
  "\"" ++ String.join (s.data.map jsonEscapeChar) ++ "\""

/-- Character class of the first regex character class in
`/^[a-zA-Z_$][a-zA-Z0-9_$]*$/` (detector.js line 138): ASCII letters,
underscore (code 95) and dollar (code 36). -/
def isIdentStartChar (c : Char) : Bool :=
  (decide (97 ≤ c.toNat) && decide (c.toNat ≤ 122)) ||
  (decide (65 ≤ c.toNat) && decide (c.toNat ≤ 90)) ||
  c.toNat == 95 || c.toNat == 36

/-- Character class `[a-zA-Z0-9_$]` for the identifier tail. -/
def isIdentTailChar (c : Char) : Bool :=
  isIdentStartChar c || (decide (48 ≤ c.toNat) && decide (c.toNat ≤ 57))

/-- Character class `\d`, that is `[0-9]`. -/
def isDigitChar (c : Char) : Bool :=
  decide (48 ≤ c.toNat) && decide (c.toNat ≤ 57)

/-- Model of `isValidIdentifier` (detector.js lines 137-138): the string
matches `/^[a-zA-Z_$][a-zA-Z0-9_$]*$/`. -/
def isValidIdentifier (s : String) : Bool :=
  match s.data with
  | [] => false
  | c :: cs => isIdentStartChar c && cs.all isIdentTailChar

/-- Model of the test `/^\d+$/.test(segment)` (detector.js line 159). -/
def isDigitString (s : String) : Bool :=
  !s.data.isEmpty && s.data.all isDigitChar

/-- Model of `segment.startsWith('[') && segment.endsWith(']')`
(detector.js line 154): the synthetic-marker shape. -/
def isMarkerString (s : String) : Bool :=
  s.data.head? == some '[' && s.data.getLast? == some ']'

/-- Model of `Symbol.prototype.toString`: `Symbol(<description or empty>)`. -/
def symToString (si : SymInfo) : String :=
  "Symbol(" ++ si.description.getD "" ++ ")"

/-- Model of `segment.description || segment.toString()` (detector.js
line 150), including the JS falsiness of the empty-string description. -/
def symDisplay (si : SymInfo) : String :=
  match si.description with
  | some d => if d = "" then symToString si else d
  | none => symToString si

/-- One step of the `path.reduce` in `pathToAccessor` (detector.js lines
140-178): `acc` is the accumulator so far, `index` the position of
`segment` in the path. -/
def segStep (acc : String) (segment : PathSeg) (index : Nat) : String :=
  match segment with
  | .sym si =>
    match si.globalKey with
    | some key =>
      if key = "" then acc ++ "[" ++ symDisplay si ++ "]"
      else acc ++ "[Symbol.for(\"" ++ key ++ "\")]"
    | none => acc ++ "[" ++ symDisplay si ++ "]"
  | .num n => acc ++ "[" ++ toString n ++ "]"
  | .str s =>
    if isMarkerString s then acc ++ s
    else if isDigitString s then acc ++ "[" ++ s ++ "]"
    else if isValidIdentifier s then
      if index = 0 then s else acc ++ "." ++ s
    else
      if index = 0 then "[" ++ jsonQuote s ++ "]"
      else acc ++ "[" ++ jsonQuote s ++ "]"

/-- Model of `pathToAccessor` (detector.js lines 131-179): the guard for
an empty path, then the indexed `reduce` starting from the empty string.
The Lean function is total by construction, matching the sources claim
that rendering never throws. -/
def pathToAccessor (path : List PathSeg) : String :=
  if path.isEmpty then ""
  else (path.foldl (fun st seg => (segStep st.1 seg st.2, st.2 + 1)) ("", 0)).1

/-- A filter pattern: a string literal, a RegExp (modelled by its `test`
function, which is all the detector uses of it), or any other value
(which `matchPatterns` ignores, detector.js line 91). -/
inductive Pattern where
  | str (s : String)
  | regex (test : String → Bool)
  | other

/-- Model of `text.startsWith(p)`: the characters of `p` are an initial
run of the characters of `text`. -/
def strStartsWith (text p : String) : Bool :=
  text.data.take p.data.length == p.data

/-- The per-pattern body of `matchPatterns` (detector.js lines 82-92):
a string matches exactly, or as a `p + '.'` or `p + '['` prefix; a RegExp
matches by its `test`; anything else never matches. -/
def matchPattern (text : String) (pattern : Pattern) : Bool :=
  match pattern with
  | .str p => text == p || strStartsWith text (p ++ ".") || strStartsWith text (p ++ "[")
  | .regex test => test text
  | .other => false

/-- Model of `matchPatterns` (detector.js lines 80-93).  The argument is
`none` for a null pattern list (option absent or not an array). -/
def matchPatterns (text : String) (patterns : Option (List Pattern)) : Bool :=
  match patterns with
  | none => false
  | some ps => if ps.isEmpty then false else ps.any (matchPattern text)

/-- Model of `shouldWatch` (detector.js lines 96-110).  Note that a
configured-but-empty include list is truthy in JS, so it is consulted and
rejects everything. -/
def shouldWatch (include? exclude? : Option (List Pattern)) (accessor : String) : Bool :=
  if include?.isSome && !matchPatterns accessor include? then false
  else if exclude?.isSome && matchPatterns accessor exclude? then false
  else true

/-- Event kinds, from the `EVENT_TYPES` constants (detector.js lines
32-40): `applyResolved` renders as the string `apply:resolved` and
`applyRejected` as `apply:rejected`. -/
inductive EventType where
  | get
  | set
  | apply
  | construct
  | deleteProperty
  | applyResolved
  | applyRejected
deriving DecidableEq

/-- One observer event, with the field set of the doc comment at the top
of detector.js.  Absent JS fields are `none`. -/
structure Event where
  type : EventType
  path : List PathSeg
  accessor : String
  prop : Option PathSeg := none
  target : JSValue
  timestamp : Nat := 0
  args : Option (List JSValue) := none
  value : Option JSValue := none
  result : Option JSValue := none
  isPromise : Option Bool := none
  error : Option JSValue := none
deriving DecidableEq

/-- Model of `createEventBase` (detector.js lines 182-189).  The
`accessor` getter is modelled by eagerly rendering the path (the getter
is a pure function of the `path` field, so the rendered value is the
same whenever it is read). -/
def createEventBase (type : EventType) (path : List PathSeg) (target : JSValue)
    (prop : Option PathSeg) (now : Nat) : Event :=
  { type := type, path := path, accessor := pathToAccessor path, prop := prop,
    target := target, timestamp := now }

/-- The per-session context closed over by the handlers: the heap, the
normalised `depthLimit` (`none` is Infinity), the normalised include and
exclude lists (`none` is null), the caller-supplied observer (returning
`some e` models `onEvent` throwing `e`), and the clock value used for
timestamps. -/
structure Ctx where
  heap : Heap
  depthLimit? : Option Nat := none
  include? : Option (List Pattern) := none
  exclude? : Option (List Pattern) := none
  onEvent : Event → Option JSValue
  now : Nat := 0

/-- Model of the helper `isPromise` (detector.js line 113):
`v instanceof Promise`, which consults only the promise flag of the heap
object, never thenable-ness. -/
def isPromise (heap : Heap) (v : JSValue) : Bool :=
  match v with
  | .obj i => (heap i).promise
  | _ => false

/-- Model of `isBuiltinMethod` (detector.js lines 114-115): membership in
`BUILTIN_SYMBOLS`, or a string property starting with `@@`. -/
def isBuiltinMethod (prop : PathSeg) : Bool :=
  match prop with
  | .sym si => si.wellKnown
  | .str s => s.data.take 2 == ['@', '@']
  | .num _ => false

/-- Reified side effects of one trap invocation, in execution order:
`emitted e` is a successful delivery of `e` to the observer, `warned err`
is the `console.warn` after the observer threw `err`, `reflectSet` and
`reflectDelete` are the forwarded underlying write and delete, and
`track eb` is `handlePromiseResult` attaching settlement continuations
with event base `eb`. -/
inductive TrapAction where
  | emitted (e : Event)
  | warned (err : JSValue)
  | reflectSet (target : JSValue) (prop : PathSeg) (value : JSValue)
  | reflectDelete (target : JSValue) (prop : PathSeg)
  | track (eventBase : Event)
deriving DecidableEq

/-- The events delivered to the observer in an action list. -/
def eventsOf (acts : List TrapAction) : List Event :=
  acts.filterMap fun a =>
    match a with
    | .emitted e => some e
    | _ => none

/-- The settlement trackers attached in an action list. -/
def tracksOf (acts : List TrapAction) : List Event :=
  acts.filterMap fun a =>
    match a with
    | .track eb => some eb
    | _ => none

/-- The forwarded underlying writes in an action list. -/
def writesOf (acts : List TrapAction) : List (JSValue × PathSeg × JSValue) :=
  acts.filterMap fun a =>
    match a with
    | .reflectSet t p v => some (t, p, v)
    | _ => none

/-- Model of `emitEvent` (detector.js lines 118-128): filter by
`shouldWatch` on the accessor; deliver to `onEvent`; an exception thrown
by the observer is caught and reported via `console.warn` only. -/
def emitEvent (ctx : Ctx) (eventData : Event) : List TrapAction :=
  if shouldWatch ctx.include? ctx.exclude? eventData.accessor then
    match ctx.onEvent eventData with
    | none => [.emitted eventData]
    | some e => [.emitted eventData, .warned e]
  else []

/-- Model of `executeOperation` (detector.js lines 192-201).  The thunk
`operation` is modelled by its outcome.  On success the event carries the
result and its promise flag; on failure the event carries the error and
the error is re-raised (returned as `.error`). -/
def executeOperation (ctx : Ctx) (operation : Except JSValue JSValue) (eventBase : Event) :
    Except JSValue JSValue × List TrapAction :=
  match operation with
  | .ok result =>
    (.ok result,
      emitEvent ctx { eventBase with result := some result,
                                     isPromise := some (isPromise ctx.heap result) })
  | .error e =>
    (.error e, emitEvent ctx { eventBase with error := some e })

/-- The settlement of a deferred value: a promise settles exactly once,
with a value or a rejection reason. -/
inductive Settlement where
  | resolved (v : JSValue)
  | rejected (e : JSValue)
deriving DecidableEq

/-- Model of `handlePromiseResult` (detector.js lines 204-219): the one
follow-up event emitted when the tracked promise settles, reusing the
event base of the original call with the type replaced. -/
def handlePromiseResult (ctx : Ctx) (eventBase : Event) (s : Settlement) : List TrapAction :=
  match s with
  | .resolved result =>
    emitEvent ctx { eventBase with type := .applyResolved, result := some result,
                                   isPromise := some true }
  | .rejected e =>
    emitEvent ctx { eventBase with type := .applyRejected, error := some e,
                                   isPromise := some true }

namespace PATH_MARKERS

/-- The synthetic path marker for a synchronous call result. -/
def SYNC_RESULT : String := "[sync-result]"

/-- The synthetic path marker for a constructed instance. -/
def CONSTRUCTED : String := "[constructed]"

end PATH_MARKERS

/-- Session bookkeeping of `createDetector`: the id supply for new
proxies, the `objToWrapper` WeakMap (original id to wrapper id), the
`processingObjects` WeakSet, and `bound`, recording for each wrapper the
`(path, depth)` pair captured by the trap handlers created for it
(detector.js lines 291-296). -/
structure WrapState where
  nextId : Nat
  objToWrapper : List (Nat × Nat) := []
  processing : List Nat := []
  bound : List (Nat × (List PathSeg × Nat)) := []
deriving DecidableEq

/-- Whether `depth > depthLimit` (detector.js line 279); the default
limit Infinity (`none`) is never exceeded. -/
def depthExceeded (depth : Nat) (depthLimit? : Option Nat) : Bool :=
  match depthLimit? with
  | some limit => depth > limit
  | none => false

/-- Model of `createProxy` (detector.js lines 276-318), in source order:
pass through non-objects, values past the depth limit, promises; return a
cached wrapper; return the original on a cycle (already in progress);
otherwise mark in progress and attempt `new Proxy` - on success register
the wrapper with its captured path and depth and unmark, on failure
unmark and return the original. -/
def createProxy (heap : Heap) (depthLimit? : Option Nat)
    (obj : JSValue) (path : List PathSeg) (depth : Nat) (st : WrapState) :
    JSValue × WrapState :=
  match obj with
  | .obj i =>
    if depthExceeded depth depthLimit? then (obj, st)
    else if (heap i).promise then (obj, st)
    else
      match st.objToWrapper.lookup i with
      | some cached => (.obj cached, st)
      | none =>
        if st.processing.contains i then (obj, st)
        else if (heap i).proxyable then
          (.obj st.nextId,
            { nextId := st.nextId + 1,
              objToWrapper := (i, st.nextId) :: st.objToWrapper,
              processing := (i :: st.processing).erase i,
              bound := (st.nextId, (path, depth)) :: st.bound })
        else (obj, { st with processing := (i :: st.processing).erase i })
  | _ => (obj, st)

/-- Model of `createGetHandler` (detector.js lines 222-237).  The outcome
of `Reflect.get(target, prop, receiver)` is the parameter `getOutcome`.
For builtin props the read happens outside `executeOperation` and the
result is returned without wrapping; otherwise the result is wrapped
unless it is a promise. -/
def createGetHandler (ctx : Ctx) (path : List PathSeg) (depth : Nat)
    (target : JSValue) (prop : PathSeg) (getOutcome : Except JSValue JSValue)
    (st : WrapState) : Except JSValue JSValue × List TrapAction × WrapState :=
  let eventBase := createEventBase .get (path ++ [prop]) target (some prop) ctx.now
  if isBuiltinMethod prop then
    match getOutcome with
    | .ok value =>
      (.ok value, emitEvent ctx { eventBase with result := some value, isPromise := some false }, st)
    | .error e => (.error e, [], st)
  else
    match executeOperation ctx getOutcome eventBase with
    | (.error e, acts) => (.error e, acts, st)
    | (.ok value, acts) =>
      if isPromise ctx.heap value then (.ok value, acts, st)
      else
        let ws := createProxy ctx.heap ctx.depthLimit? value (path ++ [prop]) (depth + 1) st
        (.ok ws.1, acts, ws.2)

/-- Model of `createSetHandler` (detector.js lines 239-245): build the
`set` event carrying the value, emit it, then perform `Reflect.set`
(reified as the trailing `reflectSet` action) and return its outcome. -/
def createSetHandler (ctx : Ctx) (path : List PathSeg)
    (target : JSValue) (prop : PathSeg) (value : JSValue)
    (setOutcome : Except JSValue Bool) : Except JSValue Bool × List TrapAction :=
  let e := { createEventBase .set (path ++ [prop]) target (some prop) ctx.now with
             value := some value }
  (setOutcome, emitEvent ctx e ++ [.reflectSet target prop value])

/-- Model of `createApplyHandler` (detector.js lines 247-261): run the
call through `executeOperation`; a promise result is returned unwrapped
with settlement tracking attached; any other result is wrapped under the
`[sync-result]` marker at depth + 1. -/
def createApplyHandler (ctx : Ctx) (path : List PathSeg) (depth : Nat)
    (target : JSValue) (argsList : List JSValue)
    (applyOutcome : Except JSValue JSValue) (st : WrapState) :
    Except JSValue JSValue × List TrapAction × WrapState :=
  let eventBase := { createEventBase .apply path target none ctx.now with
                     args := some argsList }
  match executeOperation ctx applyOutcome eventBase with
  | (.error e, acts) => (.error e, acts, st)
  | (.ok result, acts) =>
    if isPromise ctx.heap result then (.ok result, acts ++ [.track eventBase], st)
    else
      let ws := createProxy ctx.heap ctx.depthLimit? result
        (path ++ [.str PATH_MARKERS.SYNC_RESULT]) (depth + 1) st
      (.ok ws.1, acts, ws.2)

/-- Model of `createConstructHandler` (detector.js lines 263-269): run
the construction through `executeOperation`, then wrap the instance under
the `[constructed]` marker at depth + 1. -/
def createConstructHandler (ctx : Ctx) (path : List PathSeg) (depth : Nat)
    (target : JSValue) (argsList : List JSValue)
    (constructOutcome : Except JSValue JSValue) (st : WrapState) :
    Except JSValue JSValue × List TrapAction × WrapState :=
  let eventBase := { createEventBase .construct path target none ctx.now with
                     args := some argsList }
  match executeOperation ctx constructOutcome eventBase with
  | (.error e, acts) => (.error e, acts, st)
  | (.ok inst, acts) =>
    let ws := createProxy ctx.heap ctx.depthLimit? inst
      (path ++ [.str PATH_MARKERS.CONSTRUCTED]) (depth + 1) st
    (.ok ws.1, acts, ws.2)

/-- Model of `createDeleteHandler` (detector.js lines 271-274): emit the
`deleteProperty` event unconditionally, then perform the deletion and
return its outcome. -/
def createDeleteHandler (ctx : Ctx) (path : List PathSeg)
    (target : JSValue) (prop : PathSeg)
    (deleteOutcome : Except JSValue Bool) : Except JSValue Bool × List TrapAction :=
  let e := createEventBase .deleteProperty (path ++ [prop]) target (some prop) ctx.now
  (deleteOutcome, emitEvent ctx e ++ [.reflectDelete target prop])

/-- Whether `typeof v` is `"object"` or `"function"` and `v` is not null
(the target validity check of detector.js lines 69 and 278). -/
def isObjLike (v : JSValue) : Bool :=
  match v with
  | .obj _ => true
  | _ => false

/-- The caller-visible options object.  A JS object can carry any
property: the code reads `opts.enable` (detector.js line 64); the field
`enabled` below models a property of that name on the options object,
which `createDetector` never reads. -/
structure Opts where
  enable : Option Bool := none
  enabled : Option Bool := none
  depthLimit : Option Int := none
  include? : Option (List Pattern) := none
  exclude? : Option (List Pattern) := none

/-- Base of the id supply for freshly created proxies; examples place
original objects at small ids, so wrapper identities never collide with
them. -/
def freshIdBase : Nat := 1000

/-- The session state before any wrapper has been created. -/
def initialWrapState : WrapState := { nextId := freshIdBase }

/-- Model of the `depthLimit` normalisation (detector.js line 73):
`Math.max(0, n)` for a number, Infinity (`none`) otherwise. -/
def normDepthLimit (d : Option Int) : Option Nat :=
  match d with
  | some n => some n.toNat
  | none => none

/-- Model of `createDetector` (detector.js lines 58-321).
`onEventIsFunction` models `typeof onEvent === 'function'`; an invalid
observer raises the TypeError (the `.error` branch).  Then, in source
order: the `opts.enable === false` short circuit, the target validity
check, and the root `createProxy` call on a fresh session state. -/
def createDetector (heap : Heap) (target : JSValue) (onEventIsFunction : Bool)
    (opts : Opts) : Except String (JSValue × WrapState) :=
  if !onEventIsFunction then .error "onEvent must be a function"
  else if opts.enable == some false then .ok (target, initialWrapState)
  else if !isObjLike target then .ok (target, initialWrapState)
  else .ok (createProxy heap (normDepthLimit opts.depthLimit) target [] 0 initialWrapState)

/-! Shared example data for concrete witnesses and counterexamples. -/

/-- A heap of plain objects: not promises, not thenables, proxyable. -/
def exHeap : Heap := fun _ => {}

/-- A heap where object 5 is a `Promise` instance. -/
def exHeapP : Heap := fun i => if i = 5 then { promise := true } else {}

/-- A heap where object 5 is a non-Promise thenable. -/
def exHeapT : Heap := fun i => if i = 5 then { thenable := true } else {}

/-- A context with no filters and an observer that never throws. -/
def exCtx : Ctx := { heap := exHeap, onEvent := fun _ => none }

/-- A context over `exHeapP` with no filters and a quiet observer. -/
def exCtxP : Ctx := { heap := exHeapP, onEvent := fun _ => none }

/-- A context over `exHeapT` with no filters and a quiet observer. -/
def exCtxT : Ctx := { heap := exHeapT, onEvent := fun _ => none }

/-- A well-known symbol, as `Symbol.iterator` appears in `BUILTIN_SYMBOLS`. -/
def wkSym : SymInfo := { wellKnown := true, description := some "Symbol.iterator" }

/-! Helper lemmas. -/

/-- The result component of `executeOperation` is exactly the outcome of
the underlying operation. -/
theorem executeOperation_fst (ctx : Ctx) (op : Except JSValue JSValue) (eb : Event) :
    (executeOperation ctx op eb).1 = op := by
  cases op <;> rfl

/-- The delivered events of one `emitEvent` call: the event itself when
the filter passes, nothing otherwise. -/
theorem eventsOf_emitEvent (ctx : Ctx) (e : Event) :
    eventsOf (emitEvent ctx e) =
      if shouldWatch ctx.include? ctx.exclude? e.accessor then [e] else [] := by
  unfold emitEvent eventsOf
  split
  · cases ctx.onEvent e <;> simp [List.filterMap]
  · simp

/-- `emitEvent` never attaches settlement tracking. -/
theorem tracksOf_emitEvent (ctx : Ctx) (e : Event) :
    tracksOf (emitEvent ctx e) = [] := by
  unfold emitEvent tracksOf
  split
  · cases ctx.onEvent e <;> simp [List.filterMap]
  · simp

/-- `emitEvent` never performs an underlying write. -/
theorem writesOf_emitEvent (ctx : Ctx) (e : Event) :
    writesOf (emitEvent ctx e) = [] := by
  unfold emitEvent writesOf
  split
  · cases ctx.onEvent e <;> simp [List.filterMap]
  · simp

/-- `eventsOf` distributes over list append. -/
theorem eventsOf_append (l₁ l₂ : List TrapAction) :
    eventsOf (l₁ ++ l₂) = eventsOf l₁ ++ eventsOf l₂ := by
  unfold eventsOf; exact List.filterMap_append ..

/-- `tracksOf` distributes over list append. -/
theorem tracksOf_append (l₁ l₂ : List TrapAction) :
    tracksOf (l₁ ++ l₂) = tracksOf l₁ ++ tracksOf l₂ := by
  unfold tracksOf; exact List.filterMap_append ..

/-- `writesOf` distributes over list append. -/
theorem writesOf_append (l₁ l₂ : List TrapAction) :
    writesOf (l₁ ++ l₂) = writesOf l₁ ++ writesOf l₂ := by
  unfold writesOf; exact List.filterMap_append ..

/-- `strStartsWith` agrees with the list prefix relation on the
underlying characters. -/
theorem strStartsWith_iff (t p : String) :
    strStartsWith t p = true ↔ p.data <+: t.data := by
  unfold strStartsWith
  rw [beq_iff_eq, List.prefix_iff_eq_take]
  exact ⟨fun h => h.symm, fun h => h.symm⟩

/-- An identifier start character is neither the marker-opening bracket
nor a decimal digit (the regex character classes are disjoint). -/
theorem identStartChar_ne (c : Char) (h : isIdentStartChar c = true) :
    c ≠ '[' ∧ isDigitChar c = false := by
  unfold isIdentStartChar at h
  simp only [Bool.or_eq_true, Bool.and_eq_true, decide_eq_true_eq, beq_iff_eq] at h
  have h91 : ('[').toNat = 91 := rfl
  refine ⟨?_, ?_⟩
  · intro he
    rw [he, h91] at h
    omega
  · cases hb : isDigitChar c with
    | false => rfl
    | true =>
      exfalso
      unfold isDigitChar at hb
      simp only [Bool.and_eq_true, decide_eq_true_eq] at hb
      omega

/-- A valid identifier string is neither marker-shaped nor digit-shaped:
the three branches of `segStep` on string segments are mutually
exclusive. -/
theorem validIdentifier_shape (s : String) (h : isValidIdentifier s = true) :
    isMarkerString s = false ∧ isDigitString s = false := by
  unfold isValidIdentifier at h
  rcases hd : s.data with _ | ⟨c, cs⟩
  · rw [hd] at h; exact absurd h (by simp)
  · rw [hd] at h
    simp only [Bool.and_eq_true] at h
    obtain ⟨hne, hdig⟩ := identStartChar_ne c h.1
    constructor
    · unfold isMarkerString
      rw [hd]
      simp [hne]
    · unfold isDigitString
      rw [hd]
      simp [hdig]

/-- `pathToAccessor` is the first component of the indexed fold, also for
the empty path. -/
theorem pathToAccessor_eq_foldl (path : List PathSeg) :
    pathToAccessor path =
      (path.foldl (fun st seg => (segStep st.1 seg st.2, st.2 + 1)) ("", 0)).1 := by
  cases path <;> rfl

/-- The index component of the fold counts the consumed segments. -/
theorem accFoldl_snd (l : List PathSeg) (a : String) (i : Nat) :
    (l.foldl (fun st seg => (segStep st.1 seg st.2, st.2 + 1)) (a, i)).2 = i + l.length := by
  induction l generalizing a i with
  | nil => simp
  | cons hd tl ih => simp [List.foldl, ih]; omega

/-- Appending one segment renders the prefix and then applies one
`segStep` at index `pre.length`. -/
theorem pathToAccessor_concat (pre : List PathSeg) (seg : PathSeg) :
    pathToAccessor (pre ++ [seg]) = segStep (pathToAccessor pre) seg pre.length := by
  rw [pathToAccessor_eq_foldl, pathToAccessor_eq_foldl, List.foldl_append]
  have h := accFoldl_snd pre "" 0
  simp only [List.foldl]
  rw [h]
  simp

/-! Claim theorems. -/

/-- Claim C3: the filter decides reporting as follows: with an allow-set
configured the accessor must match at least one allow pattern or it is
rejected regardless of the deny-set; an accessor that passes (or with no
allow-set) is rejected when it matches any deny pattern (deny overrides
allow); a literal pattern p matches exactly p or any accessor beginning
with p followed by a dot or an opening bracket (prefix of path, not
substring); a regex pattern matches by its full-text test; an absent
allow-set admits every accessor while an empty allow-set admits none; an
absent or empty deny-set excludes none. -/
theorem shouldWatch_contract :
    (∀ inc exc acc, matchPatterns acc (some inc) = false →
      shouldWatch (some inc) exc acc = false) ∧
    (∀ inc? exc acc, (inc?.isSome → matchPatterns acc inc? = true) →
      matchPatterns acc (some exc) = true →
      shouldWatch inc? (some exc) acc = false) ∧
    (∀ t p, matchPattern t (.str p) = true ↔
      (t = p ∨ (p.data ++ ['.']) <+: t.data ∨ (p.data ++ ['[']) <+: t.data)) ∧
    (∀ t f, matchPattern t (.regex f) = f t) ∧
    (∀ acc, shouldWatch none none acc = true) ∧
    (∀ exc acc, matchPatterns acc (some exc) = false →
      shouldWatch none (some exc) acc = true) ∧
    (∀ exc acc, shouldWatch (some []) exc acc = false) ∧
    (∀ inc? acc, (inc?.isSome → matchPatterns acc inc? = true) →
      shouldWatch inc? none acc = true ∧ shouldWatch inc? (some []) acc = true) := by
  refine ⟨?_, ?_, ?_, ?_, ?_, ?_, ?_, ?_⟩
  · intro inc exc acc h
    simp [shouldWatch, h]
  · intro inc? exc acc h1 h2
    cases inc? with
    | none => simp [shouldWatch, h2]
    | some inc => simp [shouldWatch, h1, h2]
  · intro t p
    unfold matchPattern
    rw [Bool.or_eq_true, Bool.or_eq_true, beq_iff_eq, strStartsWith_iff, strStartsWith_iff]
    rw [String.data_append, String.data_append,
      show (".").data = ['.'] from rfl, show ("[").data = ['['] from rfl, or_assoc]
  · intro t f; rfl
  · intro acc; rfl
  · intro exc acc h
    simp [shouldWatch, h]
  · intro exc acc
    simp [shouldWatch, matchPatterns]
  · intro inc? acc h
    cases inc? with
    | none => exact ⟨rfl, by simp [shouldWatch, matchPatterns]⟩
    | some inc =>
      have h' : matchPatterns acc (some inc) = true := h rfl
      have he : matchPatterns acc (some []) = false := rfl
      exact ⟨by simp [shouldWatch, h'], by simp [shouldWatch, h', he]⟩

/-- Witness for C3 at concrete inputs: `include = ["public"]` admits
`public.id` and rejects `private.key`; adding
`exclude = ["public.secretField"]` rejects that subtree while keeping a
sibling; the literal prefix relation, the regex test, the empty
allow-set, and the absent or empty deny-set behave as stated. -/
theorem shouldWatch_contract_witness :
    shouldWatch (some [Pattern.str "public"]) none "private.key" = false ∧
    shouldWatch (some [Pattern.str "public"]) (some [Pattern.str "public.secretField"])
      "public.secretField.x" = false ∧
    (matchPattern "public.id" (Pattern.str "public") = true ↔
      ("public.id" = "public" ∨
       ("public".data ++ ['.']) <+: "public.id".data ∨
       ("public".data ++ ['[']) <+: "public.id".data)) ∧
    matchPattern "publicity" (Pattern.regex (fun t => t == "publicity")) =
      ((fun t => t == "publicity") "publicity") ∧
    shouldWatch none none "anything" = true ∧
    shouldWatch none (some [Pattern.str "x"]) "public.id" = true ∧
    shouldWatch (some []) none "public.id" = false ∧
    (shouldWatch (some [Pattern.str "public"]) none "public.id" = true ∧
     shouldWatch (some [Pattern.str "public"]) (some []) "public.id" = true) :=
  ⟨shouldWatch_contract.1 _ none _ (by decide),
   shouldWatch_contract.2.1 _ _ _ (fun _ => by decide) (by decide),
   shouldWatch_contract.2.2.1 "public.id" "public",
   shouldWatch_contract.2.2.2.1 "publicity" _,
   shouldWatch_contract.2.2.2.2.1 "anything",
   shouldWatch_contract.2.2.2.2.2.1 _ _ (by decide),
   shouldWatch_contract.2.2.2.2.2.2.1 none "public.id",
   shouldWatch_contract.2.2.2.2.2.2.2 (some [Pattern.str "public"]) "public.id"
     (fun _ => by decide)⟩

/-- Claim C9: `pathToAccessor` is a pure total function of the path (the
Lean model is total by construction, matching never-throws): the empty
path renders to the empty string; numeric segments always render in
bracket notation regardless of position; an identifier-shaped string
segment renders bare at index 0 and with a leading dot later;
a non-identifier string segment (one that is not digit-shaped, which the
numeric clause covers, and not a pre-bracketed synthetic marker, which is
appended verbatim) renders as a bracketed, JSON-quoted literal; the path
a, b, 2, c renders to a.b[2].c and the single segment user-name renders
to itself bracket-quoted. -/
theorem pathToAccessor_contract :
    pathToAccessor [] = "" ∧
    (∀ pre n, pathToAccessor (pre ++ [PathSeg.num n]) =
      pathToAccessor pre ++ "[" ++ toString n ++ "]") ∧
    (∀ s, isValidIdentifier s = true → pathToAccessor [PathSeg.str s] = s) ∧
    (∀ pre s, pre ≠ [] → isValidIdentifier s = true →
      pathToAccessor (pre ++ [PathSeg.str s]) = pathToAccessor pre ++ "." ++ s) ∧
    (∀ pre s, isValidIdentifier s = false → isDigitString s = false → isMarkerString s = false →
      pathToAccessor (pre ++ [PathSeg.str s]) =
        pathToAccessor pre ++ "[" ++ jsonQuote s ++ "]") ∧
    pathToAccessor [PathSeg.str "a", PathSeg.str "b", PathSeg.num 2, PathSeg.str "c"] =
      "a.b[2].c" ∧
    pathToAccessor [PathSeg.str "user-name"] = "[\"user-name\"]" := by
  refine ⟨rfl, ?_, ?_, ?_, ?_, rfl, rfl⟩
  · intro pre n
    rw [pathToAccessor_concat]
    rfl
  · intro s h
    obtain ⟨hm, hd⟩ := validIdentifier_shape s h
    have := pathToAccessor_concat [] (PathSeg.str s)
    rw [show ([PathSeg.str s] : List PathSeg) = [] ++ [PathSeg.str s] from rfl,
      pathToAccessor_concat]
    simp [segStep, hm, hd, h]
  · intro pre s hpre h
    obtain ⟨hm, hd⟩ := validIdentifier_shape s h
    rw [pathToAccessor_concat]
    have hlen : pre.length ≠ 0 := by
      simpa using fun hh => hpre (List.length_eq_zero.mp hh)
    simp [segStep, hm, hd, h, hlen]
  · intro pre s h hd hm
    rw [pathToAccessor_concat]
    rcases pre with _ | ⟨a, as⟩
    · simp [segStep, hm, hd, h]
      rfl
    · simp [segStep, hm, hd, h]

/-- Witness for C9 at concrete inputs: a numeric segment after a prefix,
a bare identifier, a dotted identifier, and a quoted non-identifier. -/
theorem pathToAccessor_contract_witness :
    pathToAccessor ([PathSeg.str "a"] ++ [PathSeg.num 7]) =
      pathToAccessor [PathSeg.str "a"] ++ "[" ++ toString 7 ++ "]" ∧
    pathToAccessor [PathSeg.str "user"] = "user" ∧
    pathToAccessor ([PathSeg.str "a"] ++ [PathSeg.str "b"]) =
      pathToAccessor [PathSeg.str "a"] ++ "." ++ "b" ∧
    pathToAccessor ([PathSeg.str "a"] ++ [PathSeg.str "x y"]) =
      pathToAccessor [PathSeg.str "a"] ++ "[" ++ jsonQuote "x y" ++ "]" :=
  ⟨pathToAccessor_contract.2.1 _ 7,
   pathToAccessor_contract.2.2.1 "user" (by decide),
   pathToAccessor_contract.2.2.2.1 _ "b" (by decide) (by decide),
   pathToAccessor_contract.2.2.2.2.1 _ "x y" (by decide) (by decide) (by decide)⟩

/-- Claim C5: `createProxy` returns the value unchanged when it is null
or neither object nor function, when the depth exceeds the configured
limit, when it is a Promise, and when it is already in progress in the
same synchronous wrap (cycle); with depthLimit 0 the root value at depth
0 is still wrapped with handlers bound to its path while a value reached
at depth 1 is returned unwrapped. -/
theorem createProxy_fast_paths :
    (∀ (heap : Heap) dl v path d st, isObjLike v = false →
      createProxy heap dl v path d st = (v, st)) ∧
    (∀ (heap : Heap) dl v path d st, depthExceeded d dl = true →
      createProxy heap dl v path d st = (v, st)) ∧
    (∀ (heap : Heap) dl i path d st, (heap i).promise = true →
      createProxy heap dl (.obj i) path d st = (.obj i, st)) ∧
    (∀ (heap : Heap) dl i path d st,
      st.objToWrapper.lookup i = none → st.processing.contains i = true →
      createProxy heap dl (.obj i) path d st = (.obj i, st)) ∧
    (∀ (heap : Heap) i path st, (heap i).promise = false → (heap i).proxyable = true →
      st.objToWrapper.lookup i = none → st.processing.contains i = false →
      (createProxy heap (some 0) (.obj i) path 0 st).1 = .obj st.nextId ∧
      (createProxy heap (some 0) (.obj i) path 0 st).2.bound.lookup st.nextId =
        some (path, 0)) ∧
    (∀ (heap : Heap) v path st, createProxy heap (some 0) v path 1 st = (v, st)) := by
  refine ⟨?_, ?_, ?_, ?_, ?_, ?_⟩
  · intro heap dl v path d st h
    cases v <;> simp_all [isObjLike, createProxy]
  · intro heap dl v path d st h
    cases v <;> simp [createProxy, h]
  · intro heap dl i path d st h
    simp [createProxy, h]
  · intro heap dl i path d st hc hpr
    have hpr' : i ∈ st.processing := by simpa using hpr
    unfold createProxy
    cases hdep : depthExceeded d dl <;> cases hp : (heap i).promise <;>
      simp [hc, hpr']
  · intro heap i path st hp hx hc hpr
    have hpr' : i ∉ st.processing := by simpa using hpr
    unfold createProxy
    simp [depthExceeded, hp, hx, hc, hpr', List.lookup, List.erase_cons_head]
  · intro heap v path st
    cases v <;> simp [createProxy, depthExceeded]

/-- Witness for C5 at concrete inputs: a string passes through; depth 2
past limit 1 passes through; the Promise object 5 passes through; an
object already in progress passes through; with depthLimit 0 the root
object is wrapped at the fresh id with its path bound while object 3 at
depth 1 passes through. -/
theorem createProxy_fast_paths_witness :
    createProxy exHeap none (.str "x") [] 0 initialWrapState =
      (.str "x", initialWrapState) ∧
    createProxy exHeap (some 1) (.obj 0) [] 2 initialWrapState =
      (.obj 0, initialWrapState) ∧
    createProxy exHeapP none (.obj 5) [] 0 initialWrapState =
      (.obj 5, initialWrapState) ∧
    createProxy exHeap none (.obj 0) [] 0 { nextId := 1000, processing := [0] } =
      (.obj 0, { nextId := 1000, processing := [0] }) ∧
    ((createProxy exHeap (some 0) (.obj 0) [PathSeg.str "p"] 0 initialWrapState).1 =
      .obj 1000 ∧
     (createProxy exHeap (some 0) (.obj 0) [PathSeg.str "p"] 0
        initialWrapState).2.bound.lookup 1000 = some ([PathSeg.str "p"], 0)) ∧
    createProxy exHeap (some 0) (.obj 3) [PathSeg.str "q"] 1 initialWrapState =
      (.obj 3, initialWrapState) :=
  ⟨createProxy_fast_paths.1 _ _ _ _ _ _ (by decide),
   createProxy_fast_paths.2.1 _ _ _ _ _ _ (by decide),
   createProxy_fast_paths.2.2.1 _ _ _ _ _ _ (by decide),
   createProxy_fast_paths.2.2.2.1 _ _ _ _ _ _ (by decide) (by decide),
   createProxy_fast_paths.2.2.2.2.1 _ _ _ _ (by decide) (by decide) (by decide) (by decide),
   createProxy_fast_paths.2.2.2.2.2 _ _ _ _⟩

/-- Counterexample to claim C8 as stated: in a session with depthLimit 0,
object 0 is wrapped at depth 0 into the wrapper with id 1000, but a
second wrap call for the same original at depth 1 (past the depth limit,
which the code checks before the cache, detector.js lines 279 and 283)
returns the original object 0 itself, not the reference-identical cached
wrapper. -/
theorem second_wrap_past_depth_limit_misses_cache :
    createProxy exHeap (some 0) (.obj 0) [] 0 initialWrapState =
      (.obj 1000, { nextId := 1001, objToWrapper := [(0, 1000)], processing := [],
                    bound := [(1000, ([], 0))] }) ∧
    createProxy exHeap (some 0) (.obj 0) [PathSeg.str "self"] 1
      { nextId := 1001, objToWrapper := [(0, 1000)], processing := [],
        bound := [(1000, ([], 0))] } =
      (.obj 0, { nextId := 1001, objToWrapper := [(0, 1000)], processing := [],
                 bound := [(1000, ([], 0))] }) ∧
    JSValue.obj 0 ≠ JSValue.obj 1000 :=
  ⟨rfl, rfl, by decide⟩

/-- Claim C8 amended: within one session, wrapping an original a second
time at a depth within the configured limit returns the
reference-identical wrapper produced by the first wrap (cache hit) and
leaves the session state unchanged, so at most one wrapper per original
exists; a second wrap call past the depth limit returns the original
unchanged instead (see the counterexample). -/
theorem second_wrap_returns_cached_wrapper
    (heap : Heap) (dl : Option Nat) (i : Nat) (path path' : List PathSeg) (d d' : Nat)
    (st : WrapState)
    (hd : depthExceeded d dl = false) (hd' : depthExceeded d' dl = false)
    (hp : (heap i).promise = false) (hx : (heap i).proxyable = true)
    (hc : st.objToWrapper.lookup i = none) (hpr : st.processing.contains i = false) :
    createProxy heap dl (.obj i) path d st =
      (.obj st.nextId,
       { nextId := st.nextId + 1,
         objToWrapper := (i, st.nextId) :: st.objToWrapper,
         processing := st.processing,
         bound := (st.nextId, (path, d)) :: st.bound }) ∧
    createProxy heap dl (.obj i) path' d'
      { nextId := st.nextId + 1,
        objToWrapper := (i, st.nextId) :: st.objToWrapper,
        processing := st.processing,
        bound := (st.nextId, (path, d)) :: st.bound } =
      (.obj st.nextId,
       { nextId := st.nextId + 1,
         objToWrapper := (i, st.nextId) :: st.objToWrapper,
         processing := st.processing,
         bound := (st.nextId, (path, d)) :: st.bound }) := by
  have hpr' : i ∉ st.processing := by simpa using hpr
  constructor
  · unfold createProxy
    simp [hd, hp, hx, hc, hpr', List.erase_cons_head]
  · unfold createProxy
    simp [hd', hp, List.lookup]

/-- Witness for C8 amended at concrete inputs: object 0, unbounded depth
limit, fresh session. -/
theorem second_wrap_returns_cached_wrapper_witness :
    createProxy exHeap none (.obj 0) [] 0 initialWrapState =
      (.obj 1000, { nextId := 1001, objToWrapper := [(0, 1000)], processing := [],
                    bound := [(1000, ([], 0))] }) ∧
    createProxy exHeap none (.obj 0) [PathSeg.str "again"] 3
      { nextId := 1001, objToWrapper := [(0, 1000)], processing := [],
        bound := [(1000, ([], 0))] } =
      (.obj 1000, { nextId := 1001, objToWrapper := [(0, 1000)], processing := [],
                    bound := [(1000, ([], 0))] }) :=
  second_wrap_returns_cached_wrapper exHeap none 0 [] [PathSeg.str "again"] 0 3
    initialWrapState (by decide) (by decide) (by decide) (by decide) (by decide) (by decide)

/-- Counterexample to claim C1 as stated: an options object whose
`enabled` property is false does not disable instrumentation - the code
reads `opts.enable` (detector.js line 64), so the target object 0 is
wrapped (into the distinct proxy 1000) instead of being returned
unchanged. -/
theorem enabled_property_is_not_read :
    createDetector exHeap (.obj 0) true { enabled := some false } =
      .ok (.obj freshIdBase,
           { nextId := freshIdBase + 1, objToWrapper := [(0, freshIdBase)],
             processing := [], bound := [(freshIdBase, ([], 0))] }) ∧
    JSValue.obj freshIdBase ≠ JSValue.obj 0 :=
  ⟨rfl, by decide⟩

/-- Claim C1 amended: the option property the code consults is named
`enable` (not `enabled`): for every target and valid onEvent callback, an
options object with `enable` false makes the entry operation return the
original target with a pristine session state (no instrumentation), and
when `enable` is absent or true (any value other than false)
instrumentation proceeds on object-like targets via the root
`createProxy` call. -/
theorem enable_option_controls_instrumentation
    (heap : Heap) (target : JSValue) (opts : Opts) :
    (opts.enable = some false →
      createDetector heap target true opts = .ok (target, initialWrapState)) ∧
    (opts.enable ≠ some false → isObjLike target = true →
      createDetector heap target true opts =
        .ok (createProxy heap (normDepthLimit opts.depthLimit) target [] 0
          initialWrapState)) := by
  constructor
  · intro h
    simp [createDetector, h]
  · intro h ht
    have hb : (opts.enable == some false) = false := by
      simp [h]
    simp [createDetector, hb, ht]

/-- Witness for C1 amended at concrete inputs: `enable` false is an
identity, absent `enable` instruments object 0. -/
theorem enable_option_controls_instrumentation_witness :
    createDetector exHeap (.obj 0) true { enable := some false } =
      .ok (.obj 0, initialWrapState) ∧
    createDetector exHeap (.obj 0) true {} =
      .ok (createProxy exHeap (normDepthLimit none) (.obj 0) [] 0 initialWrapState) :=
  ⟨(enable_option_controls_instrumentation exHeap (.obj 0) _).1 rfl,
   (enable_option_controls_instrumentation exHeap (.obj 0) {}).2 (by simp) rfl⟩

/-- Helper: the result of a fresh, successful wrap - all fast returns
miss, the cache misses, the object is not in progress and is proxyable. -/
theorem createProxy_fresh (heap : Heap) (dl : Option Nat) (i : Nat) (path : List PathSeg)
    (d : Nat) (st : WrapState)
    (hd : depthExceeded d dl = false) (hp : (heap i).promise = false)
    (hx : (heap i).proxyable = true) (hc : st.objToWrapper.lookup i = none)
    (hpr : st.processing.contains i = false) :
    createProxy heap dl (.obj i) path d st =
      (.obj st.nextId,
       { nextId := st.nextId + 1, objToWrapper := (i, st.nextId) :: st.objToWrapper,
         processing := st.processing, bound := (st.nextId, (path, d)) :: st.bound }) := by
  have hpr' : i ∉ st.processing := by simpa using hpr
  unfold createProxy
  simp [hd, hp, hx, hc, hpr', List.erase_cons_head]

/-- Computation rule: an empty action list delivers no events. -/
theorem eventsOf_nil : eventsOf [] = [] := rfl

/-- Computation rule: a tracking action delivers no event. -/
theorem eventsOf_track (eb : Event) (l : List TrapAction) :
    eventsOf (.track eb :: l) = eventsOf l := rfl

/-- Computation rule: a forwarded write delivers no event. -/
theorem eventsOf_reflectSet (t : JSValue) (p : PathSeg) (v : JSValue) (l : List TrapAction) :
    eventsOf (.reflectSet t p v :: l) = eventsOf l := rfl

/-- Computation rule: an empty action list attaches no tracking. -/
theorem tracksOf_nil : tracksOf [] = [] := rfl

/-- Computation rule: a tracking action is collected by `tracksOf`. -/
theorem tracksOf_track (eb : Event) (l : List TrapAction) :
    tracksOf (.track eb :: l) = eb :: tracksOf l := rfl

/-- Computation rule: an empty action list performs no write. -/
theorem writesOf_nil : writesOf [] = [] := rfl

/-- Computation rule: a forwarded write is collected by `writesOf`. -/
theorem writesOf_reflectSet (t : JSValue) (p : PathSeg) (v : JSValue) (l : List TrapAction) :
    writesOf (.reflectSet t p v :: l) = (t, p, v) :: writesOf l := rfl

/-- Counterexample to claim C2 as stated: when the wrapped function
returns the pending Promise object 5, the single `apply` event does carry
a synchronous `result` field, namely the Promise itself - the claim says
the event has the deferred flag and no synchronous result, but the
`result` field is `some (obj 5)`, not absent. -/
theorem apply_event_carries_promise_result :
    eventsOf (createApplyHandler exCtxP [PathSeg.str "f"] 0 (.obj 1) [] (.ok (.obj 5))
        initialWrapState).2.1 =
      [{ type := .apply, path := [PathSeg.str "f"], accessor := "f", prop := none,
         target := .obj 1, timestamp := 0, args := some [],
         result := some (.obj 5), isPromise := some true }] ∧
    some (JSValue.obj 5) ≠ (none : Option JSValue) :=
  ⟨rfl, by decide⟩

/-- Claim C2 amended: for every intercepted call returning a Promise:
exactly one `apply` event is emitted at call time with the deferred flag
true and with the pending deferred value itself as its `result` (no
settled value is available yet); the deferred value is returned to the
caller unwrapped with the session state untouched; settlement tracking is
attached once, and after settlement exactly one follow-up event with the
same path and accessor as the call is emitted - `apply:resolved` carrying
the settled value on success, `apply:rejected` carrying the rejection
reason on failure, and never both (a settlement is one of the two). -/
theorem deferred_apply_tracking (ctx : Ctx) (path : List PathSeg) (depth : Nat)
    (target : JSValue) (args : List JSValue) (pv : JSValue) (st : WrapState)
    (hp : isPromise ctx.heap pv = true)
    (hw : shouldWatch ctx.include? ctx.exclude? (pathToAccessor path) = true) :
    (createApplyHandler ctx path depth target args (.ok pv) st).1 = .ok pv ∧
    (createApplyHandler ctx path depth target args (.ok pv) st).2.2 = st ∧
    eventsOf (createApplyHandler ctx path depth target args (.ok pv) st).2.1 =
      [{ createEventBase .apply path target none ctx.now with
         args := some args, result := some pv, isPromise := some true }] ∧
    tracksOf (createApplyHandler ctx path depth target args (.ok pv) st).2.1 =
      [{ createEventBase .apply path target none ctx.now with args := some args }] ∧
    (∀ v, eventsOf (handlePromiseResult ctx
        { createEventBase .apply path target none ctx.now with args := some args }
        (.resolved v)) =
      [{ createEventBase .apply path target none ctx.now with
         args := some args, type := .applyResolved, result := some v,
         isPromise := some true }]) ∧
    (∀ e, eventsOf (handlePromiseResult ctx
        { createEventBase .apply path target none ctx.now with args := some args }
        (.rejected e)) =
      [{ createEventBase .apply path target none ctx.now with
         args := some args, type := .applyRejected, error := some e,
         isPromise := some true }]) := by
  refine ⟨?_, ?_, ?_, ?_, ?_, ?_⟩
  · simp [createApplyHandler, executeOperation, hp]
  · simp [createApplyHandler, executeOperation, hp]
  · simp [createApplyHandler, executeOperation, hp, eventsOf_append,
      eventsOf_emitEvent, eventsOf_track, eventsOf_nil, createEventBase, hw]
  · simp [createApplyHandler, executeOperation, hp, tracksOf_append,
      tracksOf_emitEvent, tracksOf_track, tracksOf_nil, createEventBase]
  · intro v
    simp [handlePromiseResult, eventsOf_emitEvent, createEventBase, hw]
  · intro e
    simp [handlePromiseResult, eventsOf_emitEvent, createEventBase, hw]

/-- Witness for C2 amended at concrete inputs: calling through the apply
trap with a function at path f returning the pending Promise object 5,
then settling it with 42 or with the string boom. -/
theorem deferred_apply_tracking_witness :
    (createApplyHandler exCtxP [PathSeg.str "f"] 0 (.obj 1) [] (.ok (.obj 5))
      initialWrapState).1 = .ok (.obj 5) ∧
    eventsOf (handlePromiseResult exCtxP
      { createEventBase .apply [PathSeg.str "f"] (.obj 1) none 0 with args := some [] }
      (.resolved (.num 42))) =
      [{ createEventBase .apply [PathSeg.str "f"] (.obj 1) none 0 with
         args := some [], type := .applyResolved, result := some (.num 42),
         isPromise := some true }] ∧
    eventsOf (handlePromiseResult exCtxP
      { createEventBase .apply [PathSeg.str "f"] (.obj 1) none 0 with args := some [] }
      (.rejected (.str "boom"))) =
      [{ createEventBase .apply [PathSeg.str "f"] (.obj 1) none 0 with
         args := some [], type := .applyRejected, error := some (.str "boom"),
         isPromise := some true }] :=
  ⟨(deferred_apply_tracking exCtxP [PathSeg.str "f"] 0 (.obj 1) [] (.obj 5)
      initialWrapState (by decide) (by decide)).1,
   (deferred_apply_tracking exCtxP [PathSeg.str "f"] 0 (.obj 1) [] (.obj 5)
      initialWrapState (by decide) (by decide)).2.2.2.2.1 (.num 42),
   (deferred_apply_tracking exCtxP [PathSeg.str "f"] 0 (.obj 1) [] (.obj 5)
      initialWrapState (by decide) (by decide)).2.2.2.2.2 (.str "boom")⟩

/-- Counterexample to claim C4 as stated: the set trap emits the `set`
event first and performs the underlying write afterwards (detector.js
lines 240 and 244), so the first action of the trap is the emission, not
the write that the claim places first. -/
theorem set_event_emitted_before_write :
    createSetHandler exCtx [PathSeg.str "address"] (.obj 2) (.str "city")
      (.str "New York") (.ok true) =
      (.ok true,
       [.emitted { type := .set, path := [PathSeg.str "address", PathSeg.str "city"],
                   accessor := "address.city", prop := some (.str "city"),
                   target := .obj 2, timestamp := 0, value := some (.str "New York") },
        .reflectSet (.obj 2) (.str "city") (.str "New York")]) ∧
    (createSetHandler exCtx [PathSeg.str "address"] (.obj 2) (.str "city")
      (.str "New York") (.ok true)).2.head? ≠
      some (TrapAction.reflectSet (.obj 2) (.str "city") (.str "New York")) :=
  ⟨rfl, by decide⟩

/-- Claim C4 amended: for every set operation through a wrapper, the trap
emits exactly one `set` event with path parent + key carrying the value
being written, and then performs the underlying write (emission precedes
the write, the only ordering the code realises - which is also what makes
the emission independent of the write outcome); the event is emitted
regardless of whether the underlying write succeeds or fails, the write
exception is never routed into the event error field, and the trap
returns the outcome of the underlying write (the write itself is
forwarded to the real target exactly once, so the property is actually
updated on success). -/
theorem set_trap_contract (ctx : Ctx) (path : List PathSeg) (target : JSValue)
    (prop : PathSeg) (value : JSValue) (setOutcome : Except JSValue Bool)
    (hw : shouldWatch ctx.include? ctx.exclude? (pathToAccessor (path ++ [prop])) = true) :
    (createSetHandler ctx path target prop value setOutcome).1 = setOutcome ∧
    eventsOf (createSetHandler ctx path target prop value setOutcome).2 =
      [{ createEventBase .set (path ++ [prop]) target (some prop) ctx.now with
         value := some value }] ∧
    ({ createEventBase .set (path ++ [prop]) target (some prop) ctx.now with
       value := some value } : Event).error = none ∧
    writesOf (createSetHandler ctx path target prop value setOutcome).2 =
      [(target, prop, value)] ∧
    (createSetHandler ctx path target prop value setOutcome).2.head? =
      some (.emitted { createEventBase .set (path ++ [prop]) target (some prop) ctx.now with
                       value := some value }) ∧
    (createSetHandler ctx path target prop value setOutcome).2.getLast? =
      some (.reflectSet target prop value) := by
  refine ⟨rfl, ?_, rfl, ?_, ?_, ?_⟩
  · simp [createSetHandler, eventsOf_append, eventsOf_emitEvent, createEventBase, hw,
      eventsOf_nil, eventsOf_reflectSet]
  · simp [createSetHandler, writesOf_append, writesOf_emitEvent, writesOf_reflectSet,
      writesOf_nil, createEventBase]
  · simp only [createSetHandler, emitEvent, createEventBase]
    rw [if_pos (by simpa [createEventBase] using hw)]
    cases ctx.onEvent _ <;> rfl
  · simp only [createSetHandler]
    exact List.getLast?_concat _

/-- Witness for C4 amended at concrete inputs: writing the string New
York to address.city, for a succeeding and for a throwing underlying
write. -/
theorem set_trap_contract_witness :
    (createSetHandler exCtx [PathSeg.str "address"] (.obj 2) (.str "city")
      (.str "New York") (.ok true)).1 = .ok true ∧
    eventsOf (createSetHandler exCtx [PathSeg.str "address"] (.obj 2) (.str "city")
      (.str "New York") (.ok true)).2 =
      [{ createEventBase .set ([PathSeg.str "address"] ++ [PathSeg.str "city"]) (.obj 2)
           (some (.str "city")) 0 with value := some (.str "New York") }] ∧
    (createSetHandler exCtx [PathSeg.str "address"] (.obj 2) (.str "city")
      (.str "New York") (.error (.str "frozen"))).1 = .error (.str "frozen") ∧
    eventsOf (createSetHandler exCtx [PathSeg.str "address"] (.obj 2) (.str "city")
      (.str "New York") (.error (.str "frozen"))).2 =
      [{ createEventBase .set ([PathSeg.str "address"] ++ [PathSeg.str "city"]) (.obj 2)
           (some (.str "city")) 0 with value := some (.str "New York") }] :=
  ⟨(set_trap_contract exCtx [PathSeg.str "address"] (.obj 2) (.str "city")
      (.str "New York") (.ok true) (by decide)).1,
   (set_trap_contract exCtx [PathSeg.str "address"] (.obj 2) (.str "city")
      (.str "New York") (.ok true) (by decide)).2.1,
   (set_trap_contract exCtx [PathSeg.str "address"] (.obj 2) (.str "city")
      (.str "New York") (.error (.str "frozen")) (by decide)).1,
   (set_trap_contract exCtx [PathSeg.str "address"] (.obj 2) (.str "city")
      (.str "New York") (.error (.str "frozen")) (by decide)).2.1⟩

/-- Counterexample to claim C6 as stated: for a get of a reserved
builtin key (a `BUILTIN_SYMBOLS` member), `Reflect.get` runs outside the
try/catch of `executeOperation` (detector.js line 227), so when it throws
the error is re-raised with no event at all - zero events, not exactly
one - even though the accessor passes the (absent) filter. -/
theorem builtin_get_failure_emits_no_event :
    createGetHandler exCtx [] 0 (.obj 0) (.sym wkSym) (.error (.str "boom"))
      initialWrapState = (.error (.str "boom"), [], initialWrapState) ∧
    shouldWatch exCtx.include? exCtx.exclude? (pathToAccessor [PathSeg.sym wkSym]) = true :=
  ⟨rfl, rfl⟩

/-- Claim C6 amended: for every apply or construct operation, and every
get of a non-reserved key, whose underlying reflected operation throws e
(and whose accessor the filter admits): exactly one event of the
corresponding type is emitted carrying e in its error field and no
result, the session state is untouched, and e is re-raised to the caller
unchanged; a get of a reserved builtin key re-raises e unchanged without
emitting any event. -/
theorem thrown_operation_reporting (ctx : Ctx) (path : List PathSeg) (depth : Nat)
    (target : JSValue) (prop : PathSeg) (args : List JSValue) (e : JSValue)
    (st : WrapState) :
    (isBuiltinMethod prop = false →
      shouldWatch ctx.include? ctx.exclude? (pathToAccessor (path ++ [prop])) = true →
      (createGetHandler ctx path depth target prop (.error e) st).1 = .error e ∧
      (createGetHandler ctx path depth target prop (.error e) st).2.2 = st ∧
      eventsOf (createGetHandler ctx path depth target prop (.error e) st).2.1 =
        [{ createEventBase .get (path ++ [prop]) target (some prop) ctx.now with
           error := some e }]) ∧
    (shouldWatch ctx.include? ctx.exclude? (pathToAccessor path) = true →
      (createApplyHandler ctx path depth target args (.error e) st).1 = .error e ∧
      (createApplyHandler ctx path depth target args (.error e) st).2.2 = st ∧
      eventsOf (createApplyHandler ctx path depth target args (.error e) st).2.1 =
        [{ createEventBase .apply path target none ctx.now with
           args := some args, error := some e }]) ∧
    (shouldWatch ctx.include? ctx.exclude? (pathToAccessor path) = true →
      (createConstructHandler ctx path depth target args (.error e) st).1 = .error e ∧
      (createConstructHandler ctx path depth target args (.error e) st).2.2 = st ∧
      eventsOf (createConstructHandler ctx path depth target args (.error e) st).2.1 =
        [{ createEventBase .construct path target none ctx.now with
           args := some args, error := some e }]) ∧
    (isBuiltinMethod prop = true →
      createGetHandler ctx path depth target prop (.error e) st = (.error e, [], st)) := by
  refine ⟨?_, ?_, ?_, ?_⟩
  · intro hb hw
    refine ⟨?_, ?_, ?_⟩
    · simp [createGetHandler, executeOperation, hb]
    · simp [createGetHandler, executeOperation, hb]
    · simp [createGetHandler, executeOperation, hb, eventsOf_emitEvent,
        createEventBase, hw]
  · intro hw
    refine ⟨?_, ?_, ?_⟩
    · simp [createApplyHandler, executeOperation]
    · simp [createApplyHandler, executeOperation]
    · simp [createApplyHandler, executeOperation, eventsOf_emitEvent,
        createEventBase, hw]
  · intro hw
    refine ⟨?_, ?_, ?_⟩
    · simp [createConstructHandler, executeOperation]
    · simp [createConstructHandler, executeOperation]
    · simp [createConstructHandler, executeOperation, eventsOf_emitEvent,
        createEventBase, hw]
  · intro hb
    simp [createGetHandler, hb]

/-- Witness for C6 amended at concrete inputs: a throwing read of the
plain property x, a throwing call, a throwing construction, and a
throwing read of a builtin symbol. -/
theorem thrown_operation_reporting_witness :
    ((createGetHandler exCtx [] 0 (.obj 0) (.str "x") (.error (.str "boom"))
        initialWrapState).1 = .error (.str "boom") ∧
     (createGetHandler exCtx [] 0 (.obj 0) (.str "x") (.error (.str "boom"))
        initialWrapState).2.2 = initialWrapState ∧
     eventsOf (createGetHandler exCtx [] 0 (.obj 0) (.str "x") (.error (.str "boom"))
        initialWrapState).2.1 =
       [{ createEventBase .get ([] ++ [PathSeg.str "x"]) (.obj 0) (some (.str "x")) 0 with
          error := some (.str "boom") }]) ∧
    (createApplyHandler exCtx [PathSeg.str "f"] 0 (.obj 0) [] (.error (.str "boom"))
        initialWrapState).1 = .error (.str "boom") ∧
    (createConstructHandler exCtx [PathSeg.str "C"] 0 (.obj 0) [] (.error (.str "boom"))
        initialWrapState).1 = .error (.str "boom") ∧
    createGetHandler exCtx [] 0 (.obj 0) (.sym wkSym) (.error (.str "raised"))
        initialWrapState = (.error (.str "raised"), [], initialWrapState) :=
  ⟨(thrown_operation_reporting exCtx [] 0 (.obj 0) (.str "x") [] (.str "boom")
      initialWrapState).1 (by decide) (by decide),
   ((thrown_operation_reporting exCtx [PathSeg.str "f"] 0 (.obj 0) (.str "x") []
      (.str "boom") initialWrapState).2.1 (by decide)).1,
   ((thrown_operation_reporting exCtx [PathSeg.str "C"] 0 (.obj 0) (.str "x") []
      (.str "boom") initialWrapState).2.2.1 (by decide)).1,
   (thrown_operation_reporting exCtx [] 0 (.obj 0) (.sym wkSym) [] (.str "raised")
      initialWrapState).2.2.2 (by decide)⟩

/-- Claim C7: observer noninterference - for every instrumented
operation, the returned value or raised exception and the resulting
session state are identical for any two observers `f` and `g` (in
particular for one that always throws and one that never does), and the
forwarded underlying writes are identical too: exceptions inside
`onEvent` are swallowed by `emitEvent` and never reach the operation. -/
theorem observer_noninterference (heap : Heap) (dl : Option Nat)
    (inc exc : Option (List Pattern)) (now : Nat) (f g : Event → Option JSValue)
    (path : List PathSeg) (depth : Nat) (target : JSValue) (prop : PathSeg)
    (value : JSValue) (args : List JSValue) (outcome : Except JSValue JSValue)
    (writeOutcome deleteOutcome : Except JSValue Bool) (st : WrapState) :
    ((createGetHandler ⟨heap, dl, inc, exc, f, now⟩ path depth target prop outcome st).1 =
       (createGetHandler ⟨heap, dl, inc, exc, g, now⟩ path depth target prop outcome st).1 ∧
     (createGetHandler ⟨heap, dl, inc, exc, f, now⟩ path depth target prop outcome st).2.2 =
       (createGetHandler ⟨heap, dl, inc, exc, g, now⟩ path depth target prop outcome st).2.2) ∧
    ((createApplyHandler ⟨heap, dl, inc, exc, f, now⟩ path depth target args outcome st).1 =
       (createApplyHandler ⟨heap, dl, inc, exc, g, now⟩ path depth target args outcome st).1 ∧
     (createApplyHandler ⟨heap, dl, inc, exc, f, now⟩ path depth target args outcome st).2.2 =
       (createApplyHandler ⟨heap, dl, inc, exc, g, now⟩ path depth target args outcome st).2.2) ∧
    ((createConstructHandler ⟨heap, dl, inc, exc, f, now⟩ path depth target args outcome st).1 =
       (createConstructHandler ⟨heap, dl, inc, exc, g, now⟩ path depth target args outcome st).1 ∧
     (createConstructHandler ⟨heap, dl, inc, exc, f, now⟩ path depth target args outcome st).2.2 =
       (createConstructHandler ⟨heap, dl, inc, exc, g, now⟩ path depth target args outcome st).2.2) ∧
    ((createSetHandler ⟨heap, dl, inc, exc, f, now⟩ path target prop value writeOutcome).1 =
       (createSetHandler ⟨heap, dl, inc, exc, g, now⟩ path target prop value writeOutcome).1 ∧
     writesOf (createSetHandler ⟨heap, dl, inc, exc, f, now⟩ path target prop value
       writeOutcome).2 =
       writesOf (createSetHandler ⟨heap, dl, inc, exc, g, now⟩ path target prop value
         writeOutcome).2) ∧
    (createDeleteHandler ⟨heap, dl, inc, exc, f, now⟩ path target prop deleteOutcome).1 =
      (createDeleteHandler ⟨heap, dl, inc, exc, g, now⟩ path target prop deleteOutcome).1 := by
  refine ⟨⟨?_, ?_⟩, ⟨?_, ?_⟩, ⟨?_, ?_⟩, ⟨?_, ?_⟩, rfl⟩
  · cases outcome with
    | error e =>
      by_cases hb : isBuiltinMethod prop <;> simp [createGetHandler, executeOperation, hb]
    | ok v =>
      by_cases hb : isBuiltinMethod prop <;> by_cases hp : isPromise heap v <;>
        simp [createGetHandler, executeOperation, hb, hp]
  · cases outcome with
    | error e =>
      by_cases hb : isBuiltinMethod prop <;> simp [createGetHandler, executeOperation, hb]
    | ok v =>
      by_cases hb : isBuiltinMethod prop <;> by_cases hp : isPromise heap v <;>
        simp [createGetHandler, executeOperation, hb, hp]
  · cases outcome with
    | error e => simp [createApplyHandler, executeOperation]
    | ok v =>
      by_cases hp : isPromise heap v <;> simp [createApplyHandler, executeOperation, hp]
  · cases outcome with
    | error e => simp [createApplyHandler, executeOperation]
    | ok v =>
      by_cases hp : isPromise heap v <;> simp [createApplyHandler, executeOperation, hp]
  · cases outcome <;> simp [createConstructHandler, executeOperation]
  · cases outcome <;> simp [createConstructHandler, executeOperation]
  · rfl
  · simp [createSetHandler, writesOf_append, writesOf_emitEvent, writesOf_reflectSet,
      writesOf_nil]

/-- Claim C10: only `instanceof Promise` values are treated as deferred:
the promise test ignores thenable-ness; a non-Promise thenable object
returned from an intercepted call is wrapped like any ordinary object -
the handler returns the fresh wrapper whose handlers are bound under the
`[sync-result]` marker at depth + 1, registers it in the cache, emits the
one `apply` event with the deferred flag false, and attaches no
settlement tracking (so no `apply:resolved` or `apply:rejected` event can
ever follow). -/
theorem thenable_is_not_deferred (ctx : Ctx) (path : List PathSeg) (depth : Nat)
    (target : JSValue) (args : List JSValue) (i : Nat) (st : WrapState)
    (_hthen : (ctx.heap i).thenable = true)
    (hp : (ctx.heap i).promise = false)
    (hdepth : depthExceeded (depth + 1) ctx.depthLimit? = false)
    (hx : (ctx.heap i).proxyable = true)
    (hc : st.objToWrapper.lookup i = none)
    (hpr : st.processing.contains i = false)
    (hw : shouldWatch ctx.include? ctx.exclude? (pathToAccessor path) = true) :
    isPromise ctx.heap (.obj i) = false ∧
    (∀ (heap1 heap2 : Heap) (j : Nat), (heap1 j).promise = (heap2 j).promise →
      isPromise heap1 (.obj j) = isPromise heap2 (.obj j)) ∧
    (createApplyHandler ctx path depth target args (.ok (.obj i)) st).1 =
      .ok (.obj st.nextId) ∧
    tracksOf (createApplyHandler ctx path depth target args (.ok (.obj i)) st).2.1 = [] ∧
    eventsOf (createApplyHandler ctx path depth target args (.ok (.obj i)) st).2.1 =
      [{ createEventBase .apply path target none ctx.now with
         args := some args, result := some (.obj i), isPromise := some false }] ∧
    (createApplyHandler ctx path depth target args
        (.ok (.obj i)) st).2.2.objToWrapper.lookup i = some st.nextId ∧
    (createApplyHandler ctx path depth target args
        (.ok (.obj i)) st).2.2.bound.lookup st.nextId =
      some (path ++ [.str PATH_MARKERS.SYNC_RESULT], depth + 1) := by
  have hpv : isPromise ctx.heap (.obj i) = false := by simp [isPromise, hp]
  have hcp := createProxy_fresh ctx.heap ctx.depthLimit? i
    (path ++ [.str PATH_MARKERS.SYNC_RESULT]) (depth + 1) st hdepth hp hx hc hpr
  refine ⟨hpv, ?_, ?_, ?_, ?_, ?_, ?_⟩
  · intro heap1 heap2 j hj
    simp [isPromise, hj]
  · simp [createApplyHandler, executeOperation, hpv, hcp]
  · simp [createApplyHandler, executeOperation, hpv, hcp, tracksOf_append,
      tracksOf_emitEvent, tracksOf_nil]
  · simp [createApplyHandler, executeOperation, hpv, hcp, eventsOf_append,
      eventsOf_emitEvent, eventsOf_nil, createEventBase, hw]
  · simp [createApplyHandler, executeOperation, hpv, hcp, List.lookup]
  · simp [createApplyHandler, executeOperation, hpv, hcp, List.lookup]

/-- Witness for C10 at concrete inputs: object 5 of `exHeapT` is a
thenable non-Promise returned by a call at path f; it is wrapped at the
fresh id 1000 under the sync-result marker, with no tracking. -/
theorem thenable_is_not_deferred_witness :
    isPromise exHeapT (.obj 5) = false ∧
    (createApplyHandler exCtxT [PathSeg.str "f"] 0 (.obj 1) [] (.ok (.obj 5))
        initialWrapState).1 = .ok (.obj 1000) ∧
    tracksOf (createApplyHandler exCtxT [PathSeg.str "f"] 0 (.obj 1) [] (.ok (.obj 5))
        initialWrapState).2.1 = [] ∧
    (createApplyHandler exCtxT [PathSeg.str "f"] 0 (.obj 1) [] (.ok (.obj 5))
        initialWrapState).2.2.bound.lookup 1000 =
      some ([PathSeg.str "f", PathSeg.str "[sync-result]"], 1) := by
  have h := thenable_is_not_deferred exCtxT [PathSeg.str "f"] 0 (.obj 1) [] 5
    initialWrapState (by decide) (by decide) (by decide) (by decide) (by decide)
    (by decide) (by decide)
  exact ⟨h.1, h.2.2.1, h.2.2.2.1, h.2.2.2.2.2.2⟩

end Detector
